import Mathlib

/-!
Shallow embedding of the NFL Stats HUB acquisition/caching subsystem
(`standings.py` and `stats_leaders.py`).

Network I/O is modelled by oracle functions mapping reference URLs to
`Option` results (`none` stands for any failure of that request: a
non-200 status or a raised exception).  Numeric JSON values are rationals
and time instants are integers (no claim depends on fractional instants);
Python dicts that are populated by insertion are association lists; the module-level `_cache` / `_cache_expiry` dicts are functions
from string keys to optional values.  Each fetch function takes the
response data and the current time as explicit arguments and returns the
new cache state, the returned value, and whether the network path was
taken (`fetched = false` on a fresh cache hit).
-/

namespace Standings

/-- Python `int(x)` applied to a numeric value: truncation toward zero. -/
def pyInt (q : ℚ) : Int := q.num / (q.den : Int)

/-- One element of an entry's flat `stats` array. -/
structure Stat where
  name : String
  value : ℚ
deriving Repr, DecidableEq

/-- One element of `entry['records']`: a stats array plus a summary string. -/
structure RecordEntry where
  stats : List Stat
  summary : String
deriving Repr, DecidableEq

/-- `team_data['venue']`; `address` is `none` when the address value is falsy. -/
structure Venue where
  fullName : String
  address : Option String
deriving Repr, DecidableEq

/-- The document fetched from `team['$ref']`.  `groupsRef` is
`team_data['groups']['$ref']`; a missing key raises inside the per-entry
`try`, hence `Option`. -/
structure TeamData where
  displayName : String
  abbreviation : String
  groupsRef : Option String
  logos : List String
  venue : Option Venue
  id : String
deriving Repr, DecidableEq

/-- The document fetched from `team_data['groups']['$ref']`. -/
structure GroupData where
  name : String
deriving Repr, DecidableEq

/-- One element of `data['standings']`.  `teamRef` is `entry['team']['$ref']`
(`none` when the `$ref` key is absent, which raises inside the per-entry
`try`). -/
structure Entry where
  teamRef : Option String
  records : List RecordEntry
deriving Repr, DecidableEq

/-- The primary standings response: HTTP status plus `data['standings']`. -/
structure StandingsResponse where
  status : Nat
  standings : List Entry
deriving Repr, DecidableEq

/-- Network oracle for the two secondary reference fetches of
`fetch_standings`; `none` models a non-200 status or an exception. -/
structure Net where
  team : String → Option TeamData
  group : String → Option GroupData

/-- The denormalized record appended to `standings` for one team. -/
structure TeamInfo where
  conference : String
  division : String
  name : String
  abbreviation : String
  wins : Int
  losses : Int
  ties : Int
  winPercent : ℚ
  logo : Option String
  pointsFor : Int
  pointsAgainst : Int
  pointDifferential : Int
  homeRecord : String
  awayRecord : String
  venue : Option String
  address : Option String
  team_id : String
deriving Repr, DecidableEq

/-- `next(stat['value'] for stat in stats if stat['name'] == n)`; `none`
models the `StopIteration` raised when no stat matches. -/
def findStat (stats : List Stat) (n : String) : Option ℚ :=
  (stats.find? (fun s => s.name == n)).map (fun s => s.value)

/-- The body of the per-entry `try` block of `fetch_standings`: the two
secondary fetches and the construction of `team_info`.  Each `none` case
models an exception caught by the per-entry handler (missing `$ref` key,
failed secondary fetch, `StopIteration` from a missing stat, a missing
`records` index, or subscripting a null venue for the address): the entry
is skipped. -/
def processEntry (net : Net) (conf : String) (stats : List Stat) (e : Entry) :
    Option TeamInfo :=
  match e.teamRef with
  | none => none
  | some ref =>
  match net.team ref with
  | none => none
  | some td =>
  match td.groupsRef with
  | none => none
  | some gref =>
  match net.group gref with
  | none => none
  | some gd =>
  match findStat stats "wins" with
  | none => none
  | some wins =>
  match findStat stats "losses" with
  | none => none
  | some losses =>
  match findStat stats "ties" with
  | none => none
  | some ties =>
  match findStat stats "winPercent" with
  | none => none
  | some winPercent =>
  match findStat stats "pointsFor" with
  | none => none
  | some pointsFor =>
  match findStat stats "pointsAgainst" with
  | none => none
  | some pointsAgainst =>
  match findStat stats "pointDifferential" with
  | none => none
  | some pointDifferential =>
  match e.records[1]? with
  | none => none
  | some rec1 =>
  match e.records[2]? with
  | none => none
  | some rec2 =>
  match td.venue with
  | none => none
  | some v =>
  some {
    conference := conf
    division := gd.name
    name := td.displayName
    abbreviation := td.abbreviation
    wins := pyInt wins
    losses := pyInt losses
    ties := pyInt ties
    winPercent := winPercent
    logo := td.logos.head?
    pointsFor := pyInt pointsFor
    pointsAgainst := pyInt pointsAgainst
    pointDifferential := pyInt pointDifferential
    homeRecord := rec1.summary
    awayRecord := rec2.summary
    venue := some v.fullName
    address := v.address
    team_id := td.id }

/-- The `for entry in data['standings']` loop.  Accessing
`entry['records'][0]['stats']` happens before the per-entry `try`, so a
missing first record aborts the whole fetch (modelled by `none`, mapped to
`[]` by the outer handler); a `none` from `processEntry` only skips that
entry. -/
def entriesLoop (net : Net) (conf : String) : List Entry → Option (List TeamInfo)
  | [] => some []
  | e :: rest =>
    match e.records[0]? with
    | none => none
    | some rec0 =>
      match processEntry net conf rec0.stats e with
      | some t => (entriesLoop net conf rest).map (fun l => t :: l)
      | none => entriesLoop net conf rest

/-- `fetch_standings(url, conference_name)`: `resp = none` models a
connection error or timeout; a non-200 status or an exception escaping to
the outer handler returns `[]`. -/
def fetch_standings (net : Net) (resp : Option StandingsResponse)
    (conf : String) : List TeamInfo :=
  match resp with
  | none => []
  | some r =>
    if r.status ≠ 200 then []
    else
      match entriesLoop net conf r.standings with
      | some l => l
      | none => []

/-- The grouping dict of `update_standings`, insertion-ordered. -/
abbrev Divisions := List (String × List TeamInfo)

/-- Append a team to its division's list, creating the key at the end on
first insertion (Python dict insertion order). -/
def insertTeam (divs : Divisions) (key : String) (t : TeamInfo) : Divisions :=
  match divs with
  | [] => [(key, [t])]
  | (k, ts) :: rest =>
    if k = key then (k, ts ++ [t]) :: rest else (k, ts) :: insertTeam rest key t

/-- The `for team in all_standings` grouping loop. -/
def groupByDivision (teams : List TeamInfo) : Divisions :=
  teams.foldl (fun d t => insertTeam d t.division t) []

/-- The sort key of `sort_teams`: `(-x['wins'], -x['winPercent'])`. -/
def sortKey (t : TeamInfo) : Int × ℚ := (-t.wins, -t.winPercent)

/-- Ascending lexicographic comparison of sort keys, as Python `sorted`
orders tuples. -/
def teamOrder (a b : TeamInfo) : Prop :=
  (sortKey a).1 < (sortKey b).1 ∨
    ((sortKey a).1 = (sortKey b).1 ∧ (sortKey a).2 ≤ (sortKey b).2)

instance : DecidableRel teamOrder := fun a b => by
  unfold teamOrder; infer_instance

instance : IsTotal TeamInfo teamOrder where
  total a b := by
    unfold teamOrder
    rcases lt_trichotomy (sortKey a).1 (sortKey b).1 with h | h | h
    · exact Or.inl (Or.inl h)
    · rcases le_total (sortKey a).2 (sortKey b).2 with h2 | h2
      · exact Or.inl (Or.inr ⟨h, h2⟩)
      · exact Or.inr (Or.inr ⟨h.symm, h2⟩)
    · exact Or.inr (Or.inl h)

instance : IsTrans TeamInfo teamOrder where
  trans a b c hab hbc := by
    unfold teamOrder at hab hbc ⊢
    rcases hab with h1 | ⟨e1, le1⟩
    · rcases hbc with h2 | ⟨e2, le2⟩
      · exact Or.inl (h1.trans h2)
      · exact Or.inl (lt_of_lt_of_eq h1 e2)
    · rcases hbc with h2 | ⟨e2, le2⟩
      · exact Or.inl (lt_of_eq_of_lt e1 h2)
      · exact Or.inr ⟨e1.trans e2, le1.trans le2⟩

/-- `sort_teams`: Python `sorted` is a stable sort on the key tuples;
modelled by insertion sort, which is stable for the same total preorder. -/
def sort_teams (teams : List TeamInfo) : List TeamInfo :=
  teams.insertionSort teamOrder

/-- The display ordering in the words of the spec: wins descending, with
win percentage descending as tie-break. -/
def winsDesc (a b : TeamInfo) : Prop :=
  b.wins < a.wins ∨ (a.wins = b.wins ∧ b.winPercent ≤ a.winPercent)

/-- `CACHE_DURATION` of `standings.py` (seconds). -/
def CACHE_DURATION : Int := 600

/-- The module-level `_cache` and `_cache_expiry` dicts of `standings.py`. -/
structure CacheState where
  cache : String → Option Divisions
  expiry : String → Option Int

/-- `if year is None: year = str(datetime.now().year - 1)`. -/
def resolveYear (year : Option String) (currentYear : Int) : String :=
  year.getD (toString (currentYear - 1))

/-- `cache_key = f"standings_{year}"`. -/
def cacheKeyOf (year : String) : String := "standings_" ++ year

/-- `cache_key in _cache and _cache_expiry.get(cache_key, 0) > current_time`:
`some v` when the check passes (with `v` the cached value), else `none`. -/
def freshHit (s : CacheState) (key : String) (now : Int) : Option Divisions :=
  match s.cache key with
  | some v => if (s.expiry key).getD 0 > now then some v else none
  | none => none

/-- Result of one call to `update_standings`: the new cache state, the
returned value, and whether the fetch path was taken. -/
structure UpdateResult where
  state : CacheState
  value : Divisions
  fetched : Bool

/-- `update_standings(year)`.  `gatherResult` models the outcome of
`asyncio.gather` of the two partition fetches: `.error` when an exception
escapes the gather (caught, stale cache returned as fallback), `.ok`
with the two partitions' lists otherwise (each partition already
degraded to `[]` on its own failure by `fetch_standings`). -/
def update_standings (s : CacheState) (now : Int) (year : Option String)
    (currentYear : Int)
    (gatherResult : Except Unit (List TeamInfo × List TeamInfo)) :
    UpdateResult :=
  let key := cacheKeyOf (resolveYear year currentYear)
  match freshHit s key now with
  | some v => ⟨s, v, false⟩
  | none =>
    match gatherResult with
    | .error _ =>
      match s.cache key with
      | some v => ⟨s, v, true⟩
      | none => ⟨s, [], true⟩
    | .ok (nfc, afc) =>
      let all := nfc ++ afc
      let divisions := (groupByDivision all).map (fun p => (p.1, sort_teams p.2))
      ⟨{ cache := fun k => if k = key then some divisions else s.cache k,
         expiry := fun k => if k = key then some (now + CACHE_DURATION) else s.expiry k },
       divisions, true⟩

end Standings

namespace Leaders

/-- `STAT_CATEGORIES` of `stats_leaders.py`. -/
def STAT_CATEGORIES : List (String × String) :=
  [("passingYards", "Passing Yards"),
   ("rushingYards", "Rushing Yards"),
   ("receivingYards", "Receiving Yards"),
   ("sacks", "Sacks"),
   ("interceptions", "Interceptions"),
   ("passingTouchdowns", "Passing TDs"),
   ("receptions", "Receptions")]

/-- The document fetched from a leader's athlete `$ref`.  Fields read via
`.get(...)` with defaults are `Option`s; `teamRef` is
`athlete_data['team']['$ref']` when both keys are present. -/
structure AthleteData where
  displayName : Option String
  position : Option String
  teamRef : Option String
  id : Option String
deriving Repr, DecidableEq

/-- The document fetched from the athlete's team `$ref`. -/
structure TeamData where
  displayName : Option String
  abbreviation : Option String
deriving Repr, DecidableEq

/-- One element of `category['leaders']`.  `athleteRef` is
`leader.get('athlete', {}).get('$ref')`; `value` is
`leader.get('value', 0)`. -/
structure Leader where
  athleteRef : Option String
  value : ℚ
deriving Repr, DecidableEq

/-- One element of `data['categories']`. -/
structure Category where
  name : Option String
  leaders : List Leader
deriving Repr, DecidableEq

/-- The primary leaders response: HTTP status plus `data['categories']`. -/
structure LeadersResponse where
  status : Nat
  categories : List Category
deriving Repr, DecidableEq

/-- Network oracle for the secondary fetches of `fetch_stats_leaders`;
`none` models a non-200 status or an exception on that request. -/
structure Net where
  athlete : String → Option AthleteData
  team : String → Option TeamData

/-- The `leader_info` record appended for one leader. -/
structure LeaderInfo where
  name : String
  position : String
  team : String
  team_abbr : String
  value : ℚ
  rank : Nat
  athlete_id : Option String
deriving Repr, DecidableEq

/-- The body of the per-leader `try` block, for the leader at enumerate
index `i`.  `none` models the three `continue` paths: a falsy athlete
`$ref`, a non-200 athlete response, or an exception.  A failed team fetch
leaves the `"Free Agent"` / `"FA"` defaults in place. -/
def processLeader (net : Net) (l : Leader) (i : Nat) : Option LeaderInfo :=
  match l.athleteRef with
  | none => none
  | some ref =>
    if ref = "" then none
    else
      match net.athlete ref with
      | none => none
      | some ad =>
        let teamPair :=
          match ad.teamRef with
          | none => ("Free Agent", "FA")
          | some tref =>
            match net.team tref with
            | none => ("Free Agent", "FA")
            | some td =>
              (td.displayName.getD "Unknown", td.abbreviation.getD "UNK")
        some {
          name := ad.displayName.getD "Unknown"
          position := ad.position.getD "UNK"
          team := teamPair.1
          team_abbr := teamPair.2
          value := l.value
          rank := i + 1
          athlete_id := ad.id }

/-- The `for i, leader in enumerate(category.get('leaders', []))` loop
starting at enumerate index `i`, with the `if i >= no_of_players: break`
guard at the top of each iteration. -/
def processLeaders (net : Net) (n : Nat) : List Leader → Nat → List LeaderInfo
  | [], _ => []
  | l :: rest, i =>
    if n ≤ i then []
    else
      match processLeader net l i with
      | some info => info :: processLeaders net n rest (i + 1)
      | none => processLeaders net n rest (i + 1)

/-- The result dict, insertion-ordered. -/
abbrev LeadersMap := List (String × List LeaderInfo)

/-- Python dict assignment `leaders[category_name] = v`: replaces the value
in place when the key exists, else appends at the end. -/
def setEntry (m : LeadersMap) (k : String) (v : List LeaderInfo) : LeadersMap :=
  match m with
  | [] => [(k, v)]
  | (k0, v0) :: rest =>
    if k0 = k then (k, v) :: rest else (k0, v0) :: setEntry rest k v

/-- One iteration of the `for category in data.get('categories', [])` loop:
categories whose name is outside `STAT_CATEGORIES` (including a missing
name) are skipped; otherwise the category's leaders are processed and the
result is assigned to `leaders[category_name]`. -/
def buildStep (net : Net) (n : Nat) (acc : LeadersMap) (c : Category) :
    LeadersMap :=
  match c.name with
  | none => acc
  | some nm =>
    if nm ∈ STAT_CATEGORIES.map Prod.fst then
      setEntry acc nm (processLeaders net n c.leaders 0)
    else acc

/-- The whole category loop of `fetch_stats_leaders`. -/
def buildLeaders (net : Net) (n : Nat) (cats : List Category) : LeadersMap :=
  cats.foldl (buildStep net n) []

/-- `CACHE_DURATION` of `stats_leaders.py` (seconds). -/
def CACHE_DURATION : Int := 300

/-- The module-level `_cache` and `_cache_expiry` dicts of
`stats_leaders.py` (separate from those of `standings.py`). -/
structure LeadersState where
  cache : String → Option LeadersMap
  expiry : String → Option Int

/-- `if year is None: year = str(datetime.now().year - 1)`. -/
def resolveYear (year : Option String) (currentYear : Int) : String :=
  year.getD (toString (currentYear - 1))

/-- `cache_key = f"leaders_{year}_{no_of_players}"`. -/
def cacheKeyOf (year : String) (n : Nat) : String :=
  "leaders_" ++ year ++ "_" ++ toString n

/-- The fresh-cache check of `fetch_stats_leaders`, as in `standings.py`. -/
def freshHit (s : LeadersState) (key : String) (now : Int) : Option LeadersMap :=
  match s.cache key with
  | some v => if (s.expiry key).getD 0 > now then some v else none
  | none => none

/-- Outcome of the primary leaders request: a response document, or one of
the three exception classes distinguished by the handlers of
`fetch_stats_leaders` (`aiohttp.ClientError`, `asyncio.TimeoutError`, and
any other `Exception`; only the last falls back to an expired cache). -/
inductive PrimaryResp where
  | ok (r : LeadersResponse)
  | connError
  | timeoutError
  | otherError
deriving Repr, DecidableEq

/-- Result of one call to `fetch_stats_leaders`. -/
structure FetchResult where
  state : LeadersState
  value : LeadersMap
  fetched : Bool

/-- `fetch_stats_leaders(year, no_of_players)`. -/
def fetch_stats_leaders (s : LeadersState) (now : Int) (year : Option String)
    (currentYear : Int) (n : Nat) (net : Net) (resp : PrimaryResp) :
    FetchResult :=
  let key := cacheKeyOf (resolveYear year currentYear) n
  match freshHit s key now with
  | some v => ⟨s, v, false⟩
  | none =>
    match resp with
    | .connError => ⟨s, [], true⟩
    | .timeoutError => ⟨s, [], true⟩
    | .otherError =>
      match s.cache key with
      | some v => ⟨s, v, true⟩
      | none => ⟨s, [], true⟩
    | .ok r =>
      if r.status ≠ 200 then ⟨s, [], true⟩
      else
        let leaders := buildLeaders net n r.categories
        ⟨{ cache := fun k => if k = key then some leaders else s.cache k,
           expiry := fun k => if k = key then some (now + CACHE_DURATION) else s.expiry k },
         leaders, true⟩

end Leaders

namespace Samples

/-- The float 0.833 as a reduced rational structure literal. -/
def q833 : ℚ := ⟨833, 1000, by norm_num, by norm_num⟩

/-- The float 0.667 as a reduced rational structure literal. -/
def q667 : ℚ := ⟨667, 1000, by norm_num, by norm_num⟩

/-- A complete stats array for one team. -/
def sampleStats : List Standings.Stat :=
  [⟨"wins", 10⟩, ⟨"losses", 2⟩, ⟨"ties", 0⟩, ⟨"winPercent", q833⟩,
   ⟨"pointsFor", 300⟩, ⟨"pointsAgainst", 200⟩, ⟨"pointDifferential", 100⟩]

/-- A standings entry that resolves fully under `sampleNet`. -/
def sampleEntry : Standings.Entry :=
  { teamRef := some "t1",
    records := [⟨sampleStats, "10-2"⟩, ⟨[], "5-2"⟩, ⟨[], "5-0"⟩] }

/-- A standings entry whose stats array lacks the required `wins` stat. -/
def entryNoWins : Standings.Entry :=
  { teamRef := some "t1",
    records := [⟨[⟨"losses", 2⟩, ⟨"ties", 0⟩, ⟨"winPercent", q833⟩],
                  "10-2"⟩, ⟨[], "5-2"⟩, ⟨[], "5-0"⟩] }

/-- Standings network oracle resolving `sampleEntry`. -/
def sampleNet : Standings.Net :=
  { team := fun r =>
      if r = "t1" then
        some { displayName := "Dallas Cowboys", abbreviation := "DAL",
               groupsRef := some "g1", logos := ["logo1"],
               venue := some ⟨"AT&T Stadium", some "Arlington"⟩, id := "6" }
      else none,
    group := fun r => if r = "g1" then some ⟨"NFC East"⟩ else none }

/-- A team record with wins=10, winPercent=0.833. -/
def teamTen : Standings.TeamInfo :=
  { conference := "NFC", division := "NFC East", name := "Team A",
    abbreviation := "AAA", wins := 10, losses := 2, ties := 0,
    winPercent := q833, logo := none, pointsFor := 0, pointsAgainst := 0,
    pointDifferential := 0, homeRecord := "", awayRecord := "", venue := none,
    address := none, team_id := "1" }

/-- A team record with wins=8, winPercent=0.667. -/
def teamEight : Standings.TeamInfo :=
  { conference := "NFC", division := "NFC East", name := "Team B",
    abbreviation := "BBB", wins := 8, losses := 4, ties := 0,
    winPercent := q667, logo := none, pointsFor := 0, pointsAgainst := 0,
    pointDifferential := 0, homeRecord := "", awayRecord := "", venue := none,
    address := none, team_id := "2" }

/-- A previously cached standings value. -/
def priorDivs : Standings.Divisions := [("NFC East", [teamTen])]

/-- A standings cache holding `priorDivs` for 2023 with expiry instant 100. -/
def staleState : Standings.CacheState :=
  { cache := fun k => if k = "standings_2023" then some priorDivs else none,
    expiry := fun k => if k = "standings_2023" then some 100 else none }

/-- An athlete document with no team reference. -/
def adNoTeam : Leaders.AthleteData :=
  { displayName := some "QB One", position := some "QB", teamRef := none,
    id := some "1" }

/-- An athlete document whose team reference fetch will fail. -/
def adTeamFail : Leaders.AthleteData :=
  { displayName := some "RB Two", position := some "RB",
    teamRef := some "t9", id := some "2" }

/-- A leader stub with no athlete reference (skipped by the loop). -/
def leadSkip : Leaders.Leader := { athleteRef := none, value := 0 }

/-- A leader stub resolving to `adNoTeam`. -/
def leadOne : Leaders.Leader := { athleteRef := some "a1", value := 4000 }

/-- A leader stub resolving to `adTeamFail`. -/
def leadTwo : Leaders.Leader := { athleteRef := some "a2", value := 1500 }

/-- Leaders network oracle: both athletes resolve, every team fetch fails. -/
def sampleLNet : Leaders.Net :=
  { athlete := fun r =>
      if r = "a1" then some adNoTeam
      else if r = "a2" then some adTeamFail
      else none,
    team := fun _ => none }

/-- A concrete leader record as cached by a prior successful fetch. -/
def infoOne : Leaders.LeaderInfo :=
  { name := "QB One", position := "QB", team := "Free Agent",
    team_abbr := "FA", value := 4000, rank := 1, athlete_id := some "1" }

/-- A previously cached leaders value. -/
def priorLeaders : Leaders.LeadersMap := [("passingYards", [infoOne])]

/-- A leaders cache holding `priorLeaders` for key `leaders_2023_5` with
expiry instant 100. -/
def staleLState : Leaders.LeadersState :=
  { cache := fun k => if k = "leaders_2023_5" then some priorLeaders else none,
    expiry := fun k => if k = "leaders_2023_5" then some 100 else none }

/-- The empty standings cache. -/
def emptyState : Standings.CacheState :=
  { cache := fun _ => none, expiry := fun _ => none }

/-- The empty leaders cache. -/
def emptyLState : Leaders.LeadersState :=
  { cache := fun _ => none, expiry := fun _ => none }

end Samples

/-! ## Helper lemmas -/

theorem teamOrder_iff_winsDesc (a b : Standings.TeamInfo) :
    Standings.teamOrder a b ↔ Standings.winsDesc a b := by
  simp only [Standings.teamOrder, Standings.winsDesc, Standings.sortKey,
    neg_lt_neg_iff, neg_inj, neg_le_neg_iff]

theorem update_standings_hit (s : Standings.CacheState) (now : Int)
    (year : Option String) (cy : Int)
    (g : Except Unit (List Standings.TeamInfo × List Standings.TeamInfo))
    (v : Standings.Divisions)
    (hv : Standings.freshHit s
      (Standings.cacheKeyOf (Standings.resolveYear year cy)) now = some v) :
    Standings.update_standings s now year cy g = ⟨s, v, false⟩ := by
  simp only [Standings.update_standings, hv]

theorem update_standings_fetch (s : Standings.CacheState) (now : Int)
    (year : Option String) (cy : Int) (nfc afc : List Standings.TeamInfo)
    (hmiss : Standings.freshHit s
      (Standings.cacheKeyOf (Standings.resolveYear year cy)) now = none) :
    Standings.update_standings s now year cy (.ok (nfc, afc)) =
      ⟨{ cache := fun k =>
           if k = Standings.cacheKeyOf (Standings.resolveYear year cy) then
             some ((Standings.groupByDivision (nfc ++ afc)).map
               (fun p => (p.1, Standings.sort_teams p.2)))
           else s.cache k,
         expiry := fun k =>
           if k = Standings.cacheKeyOf (Standings.resolveYear year cy) then
             some (now + Standings.CACHE_DURATION)
           else s.expiry k },
       (Standings.groupByDivision (nfc ++ afc)).map
         (fun p => (p.1, Standings.sort_teams p.2)), true⟩ := by
  simp only [Standings.update_standings, hmiss]

theorem fetch_stats_leaders_hit (s : Leaders.LeadersState) (now : Int)
    (year : Option String) (cy : Int) (n : Nat) (net : Leaders.Net)
    (resp : Leaders.PrimaryResp) (v : Leaders.LeadersMap)
    (hv : Leaders.freshHit s
      (Leaders.cacheKeyOf (Leaders.resolveYear year cy) n) now = some v) :
    Leaders.fetch_stats_leaders s now year cy n net resp = ⟨s, v, false⟩ := by
  simp only [Leaders.fetch_stats_leaders, hv]

theorem fetch_stats_leaders_ok (s : Leaders.LeadersState) (now : Int)
    (year : Option String) (cy : Int) (n : Nat) (net : Leaders.Net)
    (r : Leaders.LeadersResponse)
    (hmiss : Leaders.freshHit s
      (Leaders.cacheKeyOf (Leaders.resolveYear year cy) n) now = none)
    (hst : r.status = 200) :
    Leaders.fetch_stats_leaders s now year cy n net (.ok r) =
      ⟨{ cache := fun k =>
           if k = Leaders.cacheKeyOf (Leaders.resolveYear year cy) n then
             some (Leaders.buildLeaders net n r.categories)
           else s.cache k,
         expiry := fun k =>
           if k = Leaders.cacheKeyOf (Leaders.resolveYear year cy) n then
             some (now + Leaders.CACHE_DURATION)
           else s.expiry k },
       Leaders.buildLeaders net n r.categories, true⟩ := by
  simp only [Leaders.fetch_stats_leaders, hmiss, hst]
  simp

/-! ## Claim theorems -/

/-- Claim C3: for every division list of team records, `sort_teams` emits a
permutation of its input ordered by wins descending with win percentage
descending as tie-break, it is stable (two teams with identical wins and
winPercent keep their input order), and in particular a team with wins=10,
winPercent=0.833 is placed before a team with wins=8, winPercent=0.667. -/
theorem sort_teams_ordering :
    (∀ l : List Standings.TeamInfo, (Standings.sort_teams l).Perm l)
    ∧ (∀ l : List Standings.TeamInfo,
        (Standings.sort_teams l).Sorted Standings.winsDesc)
    ∧ (∀ (l : List Standings.TeamInfo) (a b : Standings.TeamInfo),
        a.wins = b.wins → a.winPercent = b.winPercent →
        List.Sublist [a, b] l → List.Sublist [a, b] (Standings.sort_teams l))
    ∧ Standings.sort_teams [Samples.teamEight, Samples.teamTen]
        = [Samples.teamTen, Samples.teamEight] := by
  refine ⟨fun l => List.perm_insertionSort _ l, fun l => ?_,
    fun l a b hw hp hsub => ?_, by decide⟩
  · exact (List.sorted_insertionSort Standings.teamOrder l).imp
      (fun hab => (teamOrder_iff_winsDesc _ _).1 hab)
  · exact List.pair_sublist_insertionSort
      (Or.inr ⟨by simp [Standings.sortKey, hw], by simp [Standings.sortKey, hp]⟩)
      hsub

/-- Claim C3 witness: the stability conjunct applied to two concrete equal-key
teams in a concrete list. -/
theorem sort_teams_ordering_witness :
    Samples.teamTen.wins = Samples.teamTen.wins
    ∧ Samples.teamTen.winPercent = Samples.teamTen.winPercent
    ∧ List.Sublist [Samples.teamTen, Samples.teamTen]
        [Samples.teamTen, Samples.teamEight, Samples.teamTen]
    ∧ List.Sublist [Samples.teamTen, Samples.teamTen]
        (Standings.sort_teams [Samples.teamTen, Samples.teamEight, Samples.teamTen]) :=
  ⟨rfl, rfl, by decide,
    sort_teams_ordering.2.2.1 [Samples.teamTen, Samples.teamEight, Samples.teamTen]
      Samples.teamTen Samples.teamTen rfl rfl (by decide)⟩

/-- Claim C8: when no season year is supplied, both fetches use the current
calendar year minus one — the call with `year = none` is the call with the
explicit year `currentYear - 1`. -/
theorem default_year_is_previous :
    ∀ (cy : Int) (s : Standings.CacheState) (now : Int)
      (g : Except Unit (List Standings.TeamInfo × List Standings.TeamInfo))
      (t : Leaders.LeadersState) (now2 : Int) (n : Nat) (net : Leaders.Net)
      (resp : Leaders.PrimaryResp),
      Standings.resolveYear none cy = toString (cy - 1)
      ∧ Leaders.resolveYear none cy = toString (cy - 1)
      ∧ Standings.update_standings s now none cy g
          = Standings.update_standings s now (some (toString (cy - 1))) cy g
      ∧ Leaders.fetch_stats_leaders t now2 none cy n net resp
          = Leaders.fetch_stats_leaders t now2 (some (toString (cy - 1))) cy n net resp :=
  fun _ _ _ _ _ _ _ _ _ => ⟨rfl, rfl, rfl, rfl⟩

/-- Claim C9: `update_standings` for year `y` modifies at most the cache
entry and expiry of the key `"standings_" ++ y`; every other key's stored
value and expiry instant are unchanged. -/
theorem update_standings_frame :
    ∀ (s : Standings.CacheState) (now : Int) (y : String) (cy : Int)
      (g : Except Unit (List Standings.TeamInfo × List Standings.TeamInfo))
      (k : String), k ≠ Standings.cacheKeyOf y →
      (Standings.update_standings s now (some y) cy g).state.cache k = s.cache k
      ∧ (Standings.update_standings s now (some y) cy g).state.expiry k
          = s.expiry k := by
  intro s now y cy g k hk
  simp only [Standings.update_standings]
  split
  · exact ⟨rfl, rfl⟩
  · cases g with
    | error e =>
      cases hc : s.cache (Standings.cacheKeyOf (Standings.resolveYear (some y) cy)) <;>
        simp [hc]
    | ok p =>
      obtain ⟨nfc, afc⟩ := p
      refine ⟨if_neg ?_, if_neg ?_⟩ <;> exact hk

/-- Claim C9 witness: a successful refresh for 2023 leaves an unrelated key
untouched. -/
theorem update_standings_frame_witness :
    ("other" ≠ Standings.cacheKeyOf "2023")
    ∧ ((Standings.update_standings Samples.staleState 200 (some "2023") 2024
          (.ok ([], []))).state.cache "other" = Samples.staleState.cache "other"
       ∧ (Standings.update_standings Samples.staleState 200 (some "2023") 2024
          (.ok ([], []))).state.expiry "other" = Samples.staleState.expiry "other") :=
  ⟨by decide,
    update_standings_frame Samples.staleState 200 "2023" 2024 (.ok ([], []))
      "other" (by decide)⟩

/-- Claim C2: a second call for the same key while the first result's TTL
has not elapsed returns the identical cached value, performs no fetch
(`fetched = false`), and leaves the cache state unchanged — for both the
standings and the leaders fetch. -/
theorem cache_fresh_hit_no_refetch :
    (∀ (s : Standings.CacheState) (t0 t1 : Int) (year : Option String)
       (cy : Int) (nfc afc : List Standings.TeamInfo)
       (g2 : Except Unit (List Standings.TeamInfo × List Standings.TeamInfo)),
       Standings.freshHit s
         (Standings.cacheKeyOf (Standings.resolveYear year cy)) t0 = none →
       t1 < t0 + Standings.CACHE_DURATION →
       Standings.update_standings
           (Standings.update_standings s t0 year cy (.ok (nfc, afc))).state
           t1 year cy g2
         = ⟨(Standings.update_standings s t0 year cy (.ok (nfc, afc))).state,
            (Standings.update_standings s t0 year cy (.ok (nfc, afc))).value,
            false⟩)
    ∧ (∀ (s : Leaders.LeadersState) (t0 t1 : Int) (year : Option String)
       (cy : Int) (n : Nat) (net1 net2 : Leaders.Net)
       (r : Leaders.LeadersResponse) (resp2 : Leaders.PrimaryResp),
       Leaders.freshHit s
         (Leaders.cacheKeyOf (Leaders.resolveYear year cy) n) t0 = none →
       r.status = 200 →
       t1 < t0 + Leaders.CACHE_DURATION →
       Leaders.fetch_stats_leaders
           (Leaders.fetch_stats_leaders s t0 year cy n net1 (.ok r)).state
           t1 year cy n net2 resp2
         = ⟨(Leaders.fetch_stats_leaders s t0 year cy n net1 (.ok r)).state,
            (Leaders.fetch_stats_leaders s t0 year cy n net1 (.ok r)).value,
            false⟩) := by
  constructor
  · intro s t0 t1 year cy nfc afc g2 hmiss ht
    rw [update_standings_fetch s t0 year cy nfc afc hmiss]
    exact update_standings_hit _ _ _ _ _ _ (by simp [Standings.freshHit, ht])
  · intro s t0 t1 year cy n net1 net2 r resp2 hmiss hst ht
    rw [fetch_stats_leaders_ok s t0 year cy n net1 r hmiss hst]
    exact fetch_stats_leaders_hit _ _ _ _ _ _ _ _ (by simp [Leaders.freshHit, ht])

/-- Claim C2 witness: both parts applied to an empty cache, a successful
first fetch at time 0, and a second call at time 100 (within both TTLs). -/
theorem cache_fresh_hit_no_refetch_witness :
    (Standings.freshHit Samples.emptyState
        (Standings.cacheKeyOf (Standings.resolveYear (some "2023") 2024)) 0 = none
     ∧ (100 : Int) < 0 + Standings.CACHE_DURATION
     ∧ Standings.update_standings
           (Standings.update_standings Samples.emptyState 0 (some "2023") 2024
             (.ok ([Samples.teamTen], []))).state
           100 (some "2023") 2024 (.error ())
         = ⟨(Standings.update_standings Samples.emptyState 0 (some "2023") 2024
              (.ok ([Samples.teamTen], []))).state,
            (Standings.update_standings Samples.emptyState 0 (some "2023") 2024
              (.ok ([Samples.teamTen], []))).value, false⟩)
    ∧ (Leaders.freshHit Samples.emptyLState
        (Leaders.cacheKeyOf (Leaders.resolveYear (some "2023") 2024) 5) 0 = none
     ∧ (200 : Nat) = 200
     ∧ (100 : Int) < 0 + Leaders.CACHE_DURATION
     ∧ Leaders.fetch_stats_leaders
           (Leaders.fetch_stats_leaders Samples.emptyLState 0 (some "2023") 2024 5
             Samples.sampleLNet (.ok ⟨200, []⟩)).state
           100 (some "2023") 2024 5 Samples.sampleLNet .connError
         = ⟨(Leaders.fetch_stats_leaders Samples.emptyLState 0 (some "2023") 2024 5
              Samples.sampleLNet (.ok ⟨200, []⟩)).state,
            (Leaders.fetch_stats_leaders Samples.emptyLState 0 (some "2023") 2024 5
              Samples.sampleLNet (.ok ⟨200, []⟩)).value, false⟩) :=
  ⟨⟨rfl, by decide,
    cache_fresh_hit_no_refetch.1 Samples.emptyState 0 100 (some "2023") 2024
      [Samples.teamTen] [] (.error ()) rfl (by decide)⟩,
   ⟨rfl, rfl, by decide,
    cache_fresh_hit_no_refetch.2 Samples.emptyLState 0 100 (some "2023") 2024 5
      Samples.sampleLNet Samples.sampleLNet ⟨200, []⟩ .connError rfl rfl
      (by decide)⟩⟩

/-- Claim C1, counterexample: both partitions return no data (the aggregate
"fetch fails" in the claim's sense) while an expired prior value is cached
for `standings_2023`; the call does NOT return the prior value — it caches
and returns the empty grouping and resets the expiry instant from 100 to
200 + 600 = 800. -/
theorem standings_failed_refresh_counterexample :
    Samples.staleState.cache "standings_2023" = some Samples.priorDivs
    ∧ Samples.staleState.expiry "standings_2023" = some 100
    ∧ Samples.priorDivs ≠ []
    ∧ (Standings.update_standings Samples.staleState 200 (some "2023") 2024
        (.ok ([], []))).value = []
    ∧ (Standings.update_standings Samples.staleState 200 (some "2023") 2024
        (.ok ([], []))).state.cache "standings_2023" = some []
    ∧ (Standings.update_standings Samples.staleState 200 (some "2023") 2024
        (.ok ([], []))).state.expiry "standings_2023" = some 800 :=
  ⟨rfl, rfl, by decide, by decide, by decide, by decide⟩

/-- Claim C1, amended: the stale-fallback applies exactly to the exception
path — when the fetch raises (standings: the `gather` raises; leaders: an
exception other than a connection error or timeout) and a prior entry
exists for the key, the prior value is returned and the whole cache state
(value and expiry) is unchanged.  (When the partitions merely return empty
data the empty aggregate is cached, overwriting the prior value and
resetting its expiry, as the counterexample shows.) -/
theorem cache_error_fallback_preserves_entry :
    (∀ (s : Standings.CacheState) (now : Int) (year : Option String) (cy : Int)
       (v : Standings.Divisions),
       Standings.freshHit s
         (Standings.cacheKeyOf (Standings.resolveYear year cy)) now = none →
       s.cache (Standings.cacheKeyOf (Standings.resolveYear year cy)) = some v →
       Standings.update_standings s now year cy (.error ()) = ⟨s, v, true⟩)
    ∧ (∀ (t : Leaders.LeadersState) (now : Int) (year : Option String)
       (cy : Int) (n : Nat) (net : Leaders.Net) (w : Leaders.LeadersMap),
       Leaders.freshHit t
         (Leaders.cacheKeyOf (Leaders.resolveYear year cy) n) now = none →
       t.cache (Leaders.cacheKeyOf (Leaders.resolveYear year cy) n) = some w →
       Leaders.fetch_stats_leaders t now year cy n net .otherError
         = ⟨t, w, true⟩) := by
  constructor
  · intro s now year cy v hmiss hv
    simp only [Standings.update_standings, hmiss, hv]
  · intro t now year cy n net w hmiss hw
    simp only [Leaders.fetch_stats_leaders, hmiss, hw]

/-- Claim C1 amended, witness: an expired prior entry survives an
exception-path refresh unchanged in both modules. -/
theorem cache_error_fallback_preserves_entry_witness :
    (Standings.freshHit Samples.staleState
        (Standings.cacheKeyOf (Standings.resolveYear (some "2023") 2024)) 200 = none
     ∧ Samples.staleState.cache
        (Standings.cacheKeyOf (Standings.resolveYear (some "2023") 2024))
        = some Samples.priorDivs
     ∧ Standings.update_standings Samples.staleState 200 (some "2023") 2024
        (.error ()) = ⟨Samples.staleState, Samples.priorDivs, true⟩)
    ∧ (Leaders.freshHit Samples.staleLState
        (Leaders.cacheKeyOf (Leaders.resolveYear (some "2023") 2024) 5) 200 = none
     ∧ Samples.staleLState.cache
        (Leaders.cacheKeyOf (Leaders.resolveYear (some "2023") 2024) 5)
        = some Samples.priorLeaders
     ∧ Leaders.fetch_stats_leaders Samples.staleLState 200 (some "2023") 2024 5
        Samples.sampleLNet .otherError
        = ⟨Samples.staleLState, Samples.priorLeaders, true⟩) :=
  ⟨⟨by decide, by decide,
    cache_error_fallback_preserves_entry.1 Samples.staleState 200 (some "2023")
      2024 Samples.priorDivs (by decide) (by decide)⟩,
   ⟨by decide, by decide,
    cache_error_fallback_preserves_entry.2 Samples.staleLState 200 (some "2023")
      2024 5 Samples.sampleLNet Samples.priorLeaders (by decide) (by decide)⟩⟩

/-- Claim C7: when one conference partition fails entirely (its fetch
degrades to `[]`) and the other succeeds, the aggregated value is exactly
the successful partition's records grouped by division; no exception
passes the aggregator (the result is total). -/
theorem standings_failed_partition_aggregation :
    ∀ (net : Standings.Net) (s : Standings.CacheState) (now : Int)
      (year : Option String) (cy : Int)
      (respA respB : Option Standings.StandingsResponse),
      Standings.freshHit s
        (Standings.cacheKeyOf (Standings.resolveYear year cy)) now = none →
      (respB = none ∨ ∃ r, respB = some r ∧ r.status ≠ 200) →
      (Standings.update_standings s now year cy
        (.ok (Standings.fetch_standings net respA "NFC",
              Standings.fetch_standings net respB "AFC"))).value
        = (Standings.groupByDivision
            (Standings.fetch_standings net respA "NFC")).map
            (fun p => (p.1, Standings.sort_teams p.2)) := by
  intro net s now year cy respA respB hmiss hfail
  have hB : Standings.fetch_standings net respB "AFC" = [] := by
    rcases hfail with rfl | ⟨r, rfl, hr⟩
    · rfl
    · simp [Standings.fetch_standings, hr]
  rw [hB, update_standings_fetch _ _ _ _ _ _ hmiss]
  simp

/-- Claim C7 witness: conference A succeeds with one resolvable team,
conference B's connection fails; the grouping holds exactly A's team. -/
theorem standings_failed_partition_aggregation_witness :
    Standings.freshHit Samples.emptyState
      (Standings.cacheKeyOf (Standings.resolveYear (some "2024") 2025)) 0 = none
    ∧ ((none : Option Standings.StandingsResponse) = none
        ∨ ∃ r, (none : Option Standings.StandingsResponse) = some r
            ∧ r.status ≠ 200)
    ∧ (Standings.update_standings Samples.emptyState 0 (some "2024") 2025
        (.ok (Standings.fetch_standings Samples.sampleNet
                (some ⟨200, [Samples.sampleEntry]⟩) "NFC",
              Standings.fetch_standings Samples.sampleNet none "AFC"))).value
        = (Standings.groupByDivision
            (Standings.fetch_standings Samples.sampleNet
              (some ⟨200, [Samples.sampleEntry]⟩) "NFC")).map
            (fun p => (p.1, Standings.sort_teams p.2)) :=
  ⟨rfl, Or.inl rfl,
    standings_failed_partition_aggregation Samples.sampleNet Samples.emptyState
      0 (some "2024") 2025 (some ⟨200, [Samples.sampleEntry]⟩) none rfl
      (Or.inl rfl)⟩

theorem processEntry_eq_none_of_missing_required
    (net : Standings.Net) (conf : String) (stats : List Standings.Stat)
    (e : Standings.Entry)
    (h : Standings.findStat stats "wins" = none
      ∨ Standings.findStat stats "losses" = none
      ∨ Standings.findStat stats "ties" = none
      ∨ Standings.findStat stats "winPercent" = none) :
    Standings.processEntry net conf stats e = none := by
  unfold Standings.processEntry
  repeat' split
  all_goals first | rfl | simp_all

theorem entriesLoop_skip_entry (net : Standings.Net) (conf : String)
    (pre post : List Standings.Entry) (e : Standings.Entry)
    (rec0 : Standings.RecordEntry) (h0 : e.records[0]? = some rec0)
    (hskip : Standings.processEntry net conf rec0.stats e = none) :
    Standings.entriesLoop net conf (pre ++ e :: post)
      = Standings.entriesLoop net conf (pre ++ post) := by
  induction pre with
  | nil => simp only [List.nil_append, Standings.entriesLoop, h0, hskip]
  | cons p ps ih =>
    simp only [List.cons_append, Standings.entriesLoop, List.append_eq, ih]

theorem entriesLoop_all_processed (net : Standings.Net) (conf : String)
    (xs : List Standings.Entry)
    (hall : ∀ e2 ∈ xs, ∃ r0 t, e2.records[0]? = some r0
        ∧ Standings.processEntry net conf r0.stats e2 = some t) :
    ∃ l, Standings.entriesLoop net conf xs = some l ∧ l.length = xs.length := by
  induction xs with
  | nil => exact ⟨[], rfl, rfl⟩
  | cons p ps ih =>
    obtain ⟨r0, t, h0, hp⟩ := hall p (List.mem_cons_self p ps)
    obtain ⟨l, hl, hlen⟩ := ih (fun e2 he => hall e2 (List.mem_cons_of_mem _ he))
    exact ⟨t :: l, by simp [Standings.entriesLoop, h0, hp, hl], by simp [hlen]⟩

/-- Claim C4: a team entry whose stats array lacks a required numeric stat
(wins, losses, ties, or winPercent) is excluded from the output — the
output is one shorter than the input entry list when every other entry
processes — no exception propagates (`fetch_standings` returns the list),
and every other team in the response is still processed. -/
theorem standings_missing_stat_skips_team :
    ∀ (net : Standings.Net) (conf : String) (pre post : List Standings.Entry)
      (e : Standings.Entry) (rec0 : Standings.RecordEntry),
      e.records[0]? = some rec0 →
      (Standings.findStat rec0.stats "wins" = none
        ∨ Standings.findStat rec0.stats "losses" = none
        ∨ Standings.findStat rec0.stats "ties" = none
        ∨ Standings.findStat rec0.stats "winPercent" = none) →
      (∀ e2 ∈ pre ++ post, ∃ r0 t, e2.records[0]? = some r0
          ∧ Standings.processEntry net conf r0.stats e2 = some t) →
      ∃ l, Standings.entriesLoop net conf (pre ++ e :: post) = some l
        ∧ l.length + 1 = (pre ++ e :: post).length
        ∧ Standings.fetch_standings net (some ⟨200, pre ++ e :: post⟩) conf = l := by
  intro net conf pre post e rec0 h0 hmiss hall
  have hskip := processEntry_eq_none_of_missing_required net conf rec0.stats e hmiss
  have heq := entriesLoop_skip_entry net conf pre post e rec0 h0 hskip
  obtain ⟨l, hl, hlen⟩ := entriesLoop_all_processed net conf (pre ++ post) hall
  refine ⟨l, heq.trans hl, ?_, ?_⟩
  · simp only [List.length_append, List.length_cons] at hlen ⊢
    omega
  · simp [Standings.fetch_standings, heq.trans hl]

/-- Claim C4 witness: a single-entry response whose team lacks the `wins`
stat yields an empty output (length 0 = 1 − 1) without failure. -/
theorem standings_missing_stat_skips_team_witness :
    Samples.entryNoWins.records[0]?
      = some ⟨[⟨"losses", 2⟩, ⟨"ties", 0⟩, ⟨"winPercent", Samples.q833⟩], "10-2"⟩
    ∧ Standings.findStat
        [⟨"losses", 2⟩, ⟨"ties", 0⟩, ⟨"winPercent", Samples.q833⟩] "wins" = none
    ∧ (∀ e2 ∈ ([] ++ [] : List Standings.Entry), ∃ r0 t,
        e2.records[0]? = some r0
        ∧ Standings.processEntry Samples.sampleNet "NFC" r0.stats e2 = some t)
    ∧ ∃ l, Standings.entriesLoop Samples.sampleNet "NFC"
          ([] ++ Samples.entryNoWins :: []) = some l
        ∧ l.length + 1 = ([] ++ Samples.entryNoWins :: []).length
        ∧ Standings.fetch_standings Samples.sampleNet
            (some ⟨200, [] ++ Samples.entryNoWins :: []⟩) "NFC" = l :=
  ⟨by decide, by decide, by simp,
    standings_missing_stat_skips_team Samples.sampleNet "NFC" [] []
      Samples.entryNoWins
      ⟨[⟨"losses", 2⟩, ⟨"ties", 0⟩, ⟨"winPercent", Samples.q833⟩], "10-2"⟩
      (by decide) (Or.inl (by decide)) (by simp)⟩

theorem processLeader_rank (net : Leaders.Net) (l : Leaders.Leader) (i : Nat)
    (info : Leaders.LeaderInfo)
    (h : Leaders.processLeader net l i = some info) : info.rank = i + 1 := by
  unfold Leaders.processLeader at h
  split at h
  · cases h
  · split at h
    · cases h
    · split at h
      · cases h
      · cases h; rfl

theorem processLeader_mem_processLeaders (net : Leaders.Net) (n : Nat) :
    ∀ (ls : List Leaders.Leader) (i j : Nat) (l : Leaders.Leader)
      (info : Leaders.LeaderInfo),
      ls[j]? = some l → i + j < n →
      Leaders.processLeader net l (i + j) = some info →
      info ∈ Leaders.processLeaders net n ls i := by
  intro ls
  induction ls with
  | nil => intro i j l info hj; simp at hj
  | cons p ps ih =>
    intro i j l info hj hlt hpl
    cases j with
    | zero =>
      rw [List.getElem?_cons_zero] at hj
      obtain rfl : p = l := by injection hj
      simp only [Leaders.processLeaders]
      rw [if_neg (by omega)]
      rw [show i + 0 = i from rfl] at hpl
      rw [hpl]
      exact List.mem_cons_self _ _
    | succ j2 =>
      rw [List.getElem?_cons_succ] at hj
      have hpl2 : Leaders.processLeader net l ((i + 1) + j2) = some info := by
        rw [show (i + 1) + j2 = i + (j2 + 1) from by omega]
        exact hpl
      have hmem := ih (i + 1) j2 l info hj (by omega) hpl2
      simp only [Leaders.processLeaders]
      rw [if_neg (by omega)]
      cases hp : Leaders.processLeader net p i with
      | some info2 => exact List.mem_cons_of_mem _ hmem
      | none => exact hmem

/-- Claim C5: a leader whose athlete document resolves but whose secondary
team lookup fails — the `team`/`$ref` reference is missing from the
athlete document, or the team fetch returns non-200 or raises — is still
included in the output, carrying the placeholders `team = "Free Agent"`
and `team_abbr = "FA"`; the failure does not remove the record or abort
the batch. -/
theorem leaders_team_fetch_failure_free_agent :
    ∀ (net : Leaders.Net) (n : Nat) (ls : List Leaders.Leader) (j : Nat)
      (l : Leaders.Leader) (ref : String) (ad : Leaders.AthleteData),
      ls[j]? = some l → j < n →
      l.athleteRef = some ref → ref ≠ "" →
      net.athlete ref = some ad →
      (ad.teamRef = none
        ∨ ∃ tref, ad.teamRef = some tref ∧ net.team tref = none) →
      ∃ info, Leaders.processLeader net l j = some info
        ∧ info.team = "Free Agent" ∧ info.team_abbr = "FA"
        ∧ info.rank = j + 1
        ∧ info ∈ Leaders.processLeaders net n ls 0 := by
  intro net n ls j l ref ad hj hjn href hne had hfail
  have hpl : Leaders.processLeader net l j = some
      { name := ad.displayName.getD "Unknown",
        position := ad.position.getD "UNK",
        team := "Free Agent", team_abbr := "FA",
        value := l.value, rank := j + 1, athlete_id := ad.id } := by
    rcases hfail with htr | ⟨tref, htr, hteam⟩
    · simp [Leaders.processLeader, href, hne, had, htr]
    · simp [Leaders.processLeader, href, hne, had, htr, hteam]
  refine ⟨_, hpl, rfl, rfl, rfl, ?_⟩
  exact processLeader_mem_processLeaders net n ls 0 j l _ hj (by omega)
    (by simpa using hpl)

/-- Claim C5 witness: both failure modes concretely — a leader whose
athlete document has no team reference, and one whose team fetch fails —
are each emitted as Free Agent records. -/
theorem leaders_team_fetch_failure_free_agent_witness :
    ([Samples.leadOne][0]? = some Samples.leadOne
     ∧ 0 < 5
     ∧ Samples.leadOne.athleteRef = some "a1"
     ∧ "a1" ≠ ""
     ∧ Samples.sampleLNet.athlete "a1" = some Samples.adNoTeam
     ∧ Samples.adNoTeam.teamRef = none
     ∧ ∃ info, Leaders.processLeader Samples.sampleLNet Samples.leadOne 0 = some info
         ∧ info.team = "Free Agent" ∧ info.team_abbr = "FA"
         ∧ info.rank = 0 + 1
         ∧ info ∈ Leaders.processLeaders Samples.sampleLNet 5 [Samples.leadOne] 0)
    ∧ ([Samples.leadTwo][0]? = some Samples.leadTwo
     ∧ 0 < 5
     ∧ Samples.leadTwo.athleteRef = some "a2"
     ∧ "a2" ≠ ""
     ∧ Samples.sampleLNet.athlete "a2" = some Samples.adTeamFail
     ∧ Samples.adTeamFail.teamRef = some "t9"
     ∧ Samples.sampleLNet.team "t9" = none
     ∧ ∃ info, Leaders.processLeader Samples.sampleLNet Samples.leadTwo 0 = some info
         ∧ info.team = "Free Agent" ∧ info.team_abbr = "FA"
         ∧ info.rank = 0 + 1
         ∧ info ∈ Leaders.processLeaders Samples.sampleLNet 5 [Samples.leadTwo] 0) :=
  ⟨⟨by decide, by decide, by decide, by decide, by decide, by decide,
    leaders_team_fetch_failure_free_agent Samples.sampleLNet 5 [Samples.leadOne]
      0 Samples.leadOne "a1" Samples.adNoTeam (by decide) (by decide)
      (by decide) (by decide) (by decide) (Or.inl (by decide))⟩,
   ⟨by decide, by decide, by decide, by decide, by decide, by decide, by decide,
    leaders_team_fetch_failure_free_agent Samples.sampleLNet 5 [Samples.leadTwo]
      0 Samples.leadTwo "a2" Samples.adTeamFail (by decide) (by decide)
      (by decide) (by decide) (by decide)
      (Or.inr ⟨"t9", by decide, by decide⟩)⟩⟩

theorem processLeaders_length_le (net : Leaders.Net) (n : Nat) :
    ∀ (ls : List Leaders.Leader) (i : Nat),
      (Leaders.processLeaders net n ls i).length ≤ n - i := by
  intro ls
  induction ls with
  | nil => intro i; simp [Leaders.processLeaders]
  | cons p ps ih =>
    intro i
    simp only [Leaders.processLeaders]
    by_cases hn : n ≤ i
    · rw [if_pos hn]; simp
    · rw [if_neg hn]
      split
      · have := ih (i + 1)
        simp only [List.length_cons]
        omega
      · have := ih (i + 1)
        omega

theorem processLeaders_rank_lower (net : Leaders.Net) (n : Nat) :
    ∀ (ls : List Leaders.Leader) (i : Nat) (info : Leaders.LeaderInfo),
      info ∈ Leaders.processLeaders net n ls i → i < info.rank := by
  intro ls
  induction ls with
  | nil => intro i info h; simp [Leaders.processLeaders] at h
  | cons p ps ih =>
    intro i info h
    simp only [Leaders.processLeaders] at h
    by_cases hn : n ≤ i
    · rw [if_pos hn] at h; simp at h
    · rw [if_neg hn] at h
      cases hp : Leaders.processLeader net p i with
      | some info2 =>
        rw [hp] at h
        rcases List.mem_cons.mp h with rfl | hmem
        · have := processLeader_rank net p i info hp; omega
        · have := ih (i + 1) info hmem; omega
      | none =>
        rw [hp] at h
        have := ih (i + 1) info h; omega

theorem processLeaders_ranks_sorted (net : Leaders.Net) (n : Nat) :
    ∀ (ls : List Leaders.Leader) (i : Nat),
      ((Leaders.processLeaders net n ls i).map
        (fun p => p.rank)).Pairwise (fun a b => a < b) := by
  intro ls
  induction ls with
  | nil => intro i; simp [Leaders.processLeaders]
  | cons p ps ih =>
    intro i
    simp only [Leaders.processLeaders]
    by_cases hn : n ≤ i
    · rw [if_pos hn]; simp
    · rw [if_neg hn]
      split
      · next info hp =>
        simp only [List.map_cons]
        refine List.Pairwise.cons ?_ (ih (i + 1))
        intro r hr
        obtain ⟨info2, hmem, rfl⟩ := List.mem_map.mp hr
        have h1 := processLeaders_rank_lower net n ps (i + 1) info2 hmem
        have h2 := processLeader_rank net p i info hp
        omega
      · exact ih (i + 1)

/-- Claim C6, counterexample: with `no_of_players = 5` and an upstream
category of two leaders whose first entry has no athlete reference, the
output for `passingYards` has a single record whose rank is 2, not the
contiguous 1..1 — rank is the enumerate index + 1, so a skipped leader
leaves a gap. -/
theorem leaders_rank_not_contiguous_counterexample :
    Leaders.buildLeaders Samples.sampleLNet 5
        [⟨some "passingYards", [Samples.leadSkip, Samples.leadOne]⟩]
      = [("passingYards",
          [{ name := "QB One", position := "QB", team := "Free Agent",
             team_abbr := "FA", value := 4000, rank := 2,
             athlete_id := some "1" }])]
    ∧ ([({ name := "QB One", position := "QB", team := "Free Agent",
           team_abbr := "FA", value := 4000, rank := 2,
           athlete_id := some "1" } : Leaders.LeaderInfo)].map
        (fun q => q.rank)) ≠ List.range' 1 1 :=
  ⟨by decide, by decide⟩

/-- Claim C6, amended: every category's output holds at most
`no_of_players` records; ranks equal the 1-based fetch-order position in
the upstream feed (rank = enumerate index + 1, never re-sorted on value)
and are strictly increasing, but they are contiguous `1..k` only when no
leader among the first `min(n, length)` is skipped. -/
theorem leaders_rank_fetch_order :
    ∀ (net : Leaders.Net) (n : Nat) (ls : List Leaders.Leader),
      (Leaders.processLeaders net n ls 0).length ≤ n
      ∧ ((Leaders.processLeaders net n ls 0).map
          (fun p => p.rank)).Pairwise (fun a b => a < b)
      ∧ (∀ (j : Nat) (l : Leaders.Leader) (info : Leaders.LeaderInfo),
          ls[j]? = some l → j < n →
          Leaders.processLeader net l j = some info →
          info.rank = j + 1 ∧ info ∈ Leaders.processLeaders net n ls 0) := by
  intro net n ls
  refine ⟨?_, processLeaders_ranks_sorted net n ls 0, ?_⟩
  · have := processLeaders_length_le net n ls 0
    omega
  · intro j l info hj hjn hpl
    refine ⟨processLeader_rank net l j info hpl, ?_⟩
    exact processLeader_mem_processLeaders net n ls 0 j l info hj (by omega)
      (by simpa using hpl)

/-- Claim C6 amended, witness: the third conjunct applied to the concrete
skipped-first-leader feed — the surviving leader at fetch index 1 keeps
rank 2 and is in the output. -/
theorem leaders_rank_fetch_order_witness :
    [Samples.leadSkip, Samples.leadOne][1]? = some Samples.leadOne
    ∧ 1 < 5
    ∧ (Leaders.processLeader Samples.sampleLNet Samples.leadOne 1).isSome
    ∧ ∃ info, Leaders.processLeader Samples.sampleLNet Samples.leadOne 1 = some info
        ∧ info.rank = 1 + 1
        ∧ info ∈ Leaders.processLeaders Samples.sampleLNet 5
            [Samples.leadSkip, Samples.leadOne] 0 :=
  ⟨by decide, by decide, by decide,
    ⟨{ name := "QB One", position := "QB", team := "Free Agent",
       team_abbr := "FA", value := 4000, rank := 2, athlete_id := some "1" },
      by decide,
      ((leaders_rank_fetch_order Samples.sampleLNet 5
          [Samples.leadSkip, Samples.leadOne]).2.2 1 Samples.leadOne
        { name := "QB One", position := "QB", team := "Free Agent",
          team_abbr := "FA", value := 4000, rank := 2, athlete_id := some "1" }
        (by decide) (by decide) (by decide)).1,
      ((leaders_rank_fetch_order Samples.sampleLNet 5
          [Samples.leadSkip, Samples.leadOne]).2.2 1 Samples.leadOne
        { name := "QB One", position := "QB", team := "Free Agent",
          team_abbr := "FA", value := 4000, rank := 2, athlete_id := some "1" }
        (by decide) (by decide) (by decide)).2⟩⟩

theorem setEntry_keys (m : Leaders.LeadersMap) (k0 : String)
    (v : List Leaders.LeaderInfo) :
    ∀ k, k ∈ (Leaders.setEntry m k0 v).map Prod.fst →
      k = k0 ∨ k ∈ m.map Prod.fst := by
  induction m with
  | nil =>
    intro k hk
    simp only [Leaders.setEntry, List.map_cons, List.map_nil,
      List.mem_cons, List.not_mem_nil, or_false] at hk
    exact Or.inl hk
  | cons p ps ih =>
    intro k hk
    obtain ⟨k1, v1⟩ := p
    simp only [Leaders.setEntry] at hk
    by_cases he : k1 = k0
    · rw [if_pos he] at hk
      simp only [List.map_cons, List.mem_cons] at hk
      rcases hk with rfl | h
      · exact Or.inl rfl
      · exact Or.inr (by simp [h])
    · rw [if_neg he] at hk
      simp only [List.map_cons, List.mem_cons] at hk
      rcases hk with rfl | h
      · exact Or.inr (by simp)
      · rcases ih k h with h1 | h2
        · exact Or.inl h1
        · exact Or.inr (by simp [h2])

theorem buildStep_keys (net : Leaders.Net) (nn : Nat)
    (acc : Leaders.LeadersMap) (c : Leaders.Category) (k : String)
    (hk : k ∈ (Leaders.buildStep net nn acc c).map Prod.fst) :
    k ∈ acc.map Prod.fst ∨ k ∈ Leaders.STAT_CATEGORIES.map Prod.fst := by
  unfold Leaders.buildStep at hk
  split at hk
  · exact Or.inl hk
  · split at hk
    · next hnm =>
      rcases setEntry_keys acc _ _ k hk with rfl | h
      · exact Or.inr hnm
      · exact Or.inl h
    · exact Or.inl hk

theorem buildLeaders_keys_aux (net : Leaders.Net) (nn : Nat) :
    ∀ (cats : List Leaders.Category) (acc : Leaders.LeadersMap) (k : String),
      k ∈ (List.foldl (Leaders.buildStep net nn) acc cats).map Prod.fst →
      k ∈ acc.map Prod.fst ∨ k ∈ Leaders.STAT_CATEGORIES.map Prod.fst := by
  intro cats
  induction cats with
  | nil => intro acc k hk; exact Or.inl hk
  | cons c cs ih =>
    intro acc k hk
    simp only [List.foldl_cons] at hk
    rcases ih (Leaders.buildStep net nn acc c) k hk with h | h
    · exact buildStep_keys net nn acc c k h
    · exact Or.inr h

/-- Claim C10: every key of the mapping built by the leaders fetch lies in
the fixed seven-element `STAT_CATEGORIES` set; upstream categories outside
that set never appear in the output, whatever the response. -/
theorem leaders_keys_subset_categories :
    ∀ (net : Leaders.Net) (n : Nat) (cats : List Leaders.Category)
      (k : String),
      k ∈ (Leaders.buildLeaders net n cats).map Prod.fst →
      k ∈ Leaders.STAT_CATEGORIES.map Prod.fst := by
  intro net n cats k hk
  rcases buildLeaders_keys_aux net n cats [] k hk with h | h
  · simp at h
  · exact h

/-- Claim C10 witness: a response containing a known and an unknown
category yields only the known key, which is in the category set. -/
theorem leaders_keys_subset_categories_witness :
    "passingYards" ∈ (Leaders.buildLeaders Samples.sampleLNet 5
        [⟨some "passingYards", [Samples.leadOne]⟩,
         ⟨some "bogus", []⟩]).map Prod.fst
    ∧ "passingYards" ∈ Leaders.STAT_CATEGORIES.map Prod.fst :=
  ⟨by decide,
    leaders_keys_subset_categories Samples.sampleLNet 5
      [⟨some "passingYards", [Samples.leadOne]⟩, ⟨some "bogus", []⟩]
      "passingYards" (by decide)⟩
